import Mathlib

/- Formal model of src/src/transformers/models/yoso/configuration_yoso.py.

   The file defines a single class, YosoConfig, subclassing PretrainedConfig.
   A Python instance is modelled as an association list of attributes
   (first binding wins on lookup, assignment prepends, matching Python dict
   update semantics where the most recent assignment is the one observed).
   Python scalar values are modelled by the inductive type PyValue; Python
   float literals appearing in the source (0.1, 0.02, 1e-12) are modelled by
   the rational numbers those literals denote. -/

/-- A Python scalar value as it appears in this configuration file:
integers, floats (modelled as rationals), strings, booleans, and None. -/
inductive PyValue where
  | int : Int → PyValue
  | float : ℚ → PyValue
  | str : String → PyValue
  | bool : Bool → PyValue
  | none : PyValue
  deriving DecidableEq

/-- The attribute dictionary of a Python object: name to value bindings,
first binding wins. -/
abbrev Attrs := List (String × PyValue)

/-- Python attribute read on an instance dictionary: the most recent
binding of the name, if any. -/
def getattr : Attrs → String → Option PyValue
  | [], _ => Option.none
  | (k, v) :: rest, name => if name = k then some v else getattr rest name

/-- Python attribute assignment on an instance dictionary: the new binding
shadows any previous binding of the same name. -/
def setattr (s : Attrs) (k : String) (v : PyValue) : Attrs :=
  (k, v) :: s

/-- The keyword arguments accepted by YosoConfig.__init__ (source lines
100-125): the 19 explicitly assigned parameters, the three token-id
parameters, and the open-ended **kwargs, each with the default value
written in the source. The float defaults 0.1, 0.02 and 1e-12 are the
rationals 1/10, 1/50 and 1/10^12. -/
structure YosoConfig.InitArgs where
  vocab_size : PyValue := .int 50265
  hidden_size : PyValue := .int 768
  num_hidden_layers : PyValue := .int 12
  num_attention_heads : PyValue := .int 12
  intermediate_size : PyValue := .int 3072
  hidden_act : PyValue := .str "gelu"
  hidden_dropout_prob : PyValue := .float (1 / 10)
  attention_probs_dropout_prob : PyValue := .float (1 / 10)
  max_position_embeddings : PyValue := .int 4096
  type_vocab_size : PyValue := .int 1
  initializer_range : PyValue := .float (1 / 50)
  layer_norm_eps : PyValue := .float (1 / 1000000000000)
  position_embedding_type : PyValue := .str "absolute"
  use_expectation : PyValue := .bool true
  hash_code_len : PyValue := .int 9
  num_hash : PyValue := .int 64
  conv_window : PyValue := .none
  use_fast_hash : PyValue := .bool true
  lsh_backward : PyValue := .bool true
  pad_token_id : PyValue := .int 1
  bos_token_id : PyValue := .int 0
  eos_token_id : PyValue := .int 2
  kwargs : Attrs := []

/-- The argument list YosoConfig.__init__ passes to the base initializer
(source line 126): the three token-id fields followed by all remaining
keyword arguments. -/
def YosoConfig.forwardedToBase (args : YosoConfig.InitArgs) : Attrs :=
  ("pad_token_id", args.pad_token_id) ::
  ("bos_token_id", args.bos_token_id) ::
  ("eos_token_id", args.eos_token_id) ::
  args.kwargs

/-- Modelled from the spec: the shared base initializer
(PretrainedConfig.__init__, whose source is not part of this repository
slice) assigns each of the three forwarded token-id keyword arguments to a
same-named attribute on the fresh instance; the spec leaves its treatment
of the other forwarded keyword arguments unspecified, so this model stores
only the token ids. -/
def PretrainedConfig.base_init (forwarded : Attrs) : Attrs :=
  let s0 : Attrs := []
  let s1 := match getattr forwarded "pad_token_id" with
    | some v => setattr s0 "pad_token_id" v
    | Option.none => s0
  let s2 := match getattr forwarded "bos_token_id" with
    | some v => setattr s1 "bos_token_id" v
    | Option.none => s1
  let s3 := match getattr forwarded "eos_token_id" with
    | some v => setattr s2 "eos_token_id" v
    | Option.none => s2
  s3

/-- The 19 attribute assignments performed by YosoConfig.__init__ after the
base-initializer call returns, in source order (lines 128-146). -/
def YosoConfig.assignFields (args : YosoConfig.InitArgs) (s0 : Attrs) : Attrs :=
  let s1 := setattr s0 "vocab_size" args.vocab_size
  let s2 := setattr s1 "max_position_embeddings" args.max_position_embeddings
  let s3 := setattr s2 "hidden_size" args.hidden_size
  let s4 := setattr s3 "num_hidden_layers" args.num_hidden_layers
  let s5 := setattr s4 "num_attention_heads" args.num_attention_heads
  let s6 := setattr s5 "intermediate_size" args.intermediate_size
  let s7 := setattr s6 "hidden_act" args.hidden_act
  let s8 := setattr s7 "hidden_dropout_prob" args.hidden_dropout_prob
  let s9 := setattr s8 "attention_probs_dropout_prob" args.attention_probs_dropout_prob
  let s10 := setattr s9 "initializer_range" args.initializer_range
  let s11 := setattr s10 "type_vocab_size" args.type_vocab_size
  let s12 := setattr s11 "layer_norm_eps" args.layer_norm_eps
  let s13 := setattr s12 "position_embedding_type" args.position_embedding_type
  let s14 := setattr s13 "use_expectation" args.use_expectation
  let s15 := setattr s14 "hash_code_len" args.hash_code_len
  let s16 := setattr s15 "num_hash" args.num_hash
  let s17 := setattr s16 "conv_window" args.conv_window
  let s18 := setattr s17 "use_fast_hash" args.use_fast_hash
  let s19 := setattr s18 "lsh_backward" args.lsh_backward
  s19

/-- YosoConfig.__init__ with the base-initializer behavior abstracted as a
function from the forwarded argument list to the attributes the base sets
on the fresh instance: first the base call (line 126), then the 19
explicit assignments (lines 128-146). -/
def YosoConfig.init_gen (base : Attrs → Attrs) (args : YosoConfig.InitArgs) : Attrs :=
  YosoConfig.assignFields args (base (YosoConfig.forwardedToBase args))

/-- YosoConfig.__init__ with the spec-modelled base initializer plugged
in: the attribute dictionary of a freshly constructed instance. -/
def YosoConfig.init (args : YosoConfig.InitArgs) : Attrs :=
  YosoConfig.init_gen PretrainedConfig.base_init args

/-- The class attribute model_type (source line 98). -/
def YosoConfig.model_type : String := "yoso"

/-- The class-level attribute dictionary of YosoConfig: the class body
defines the single data attribute model_type. -/
def YosoConfig.classAttrs : Attrs :=
  [("model_type", PyValue.str YosoConfig.model_type)]

/-- Python attribute lookup on a YosoConfig instance: the instance
dictionary first, then the class dictionary. -/
def getattro (instanceAttrs : Attrs) (name : String) : Option PyValue :=
  match getattr instanceAttrs name with
  | some v => some v
  | Option.none => getattr YosoConfig.classAttrs name

/-- The operations the YosoConfig class exposes on a constructed instance.
The class body (source lines 98-146) defines only the model_type data
attribute and the constructor, so the whole post-construction interface of
an instance consists of attribute reads. -/
inductive ConfigOp where
  | readAttr : String → ConfigOp
  deriving DecidableEq

/-- Running one exposed operation on an instance: it returns the value
read and the (unchanged) instance dictionary. -/
def runOp : ConfigOp → Attrs → Option PyValue × Attrs
  | ConfigOp.readAttr name, s => (getattro s name, s)

/-- Running a sequence of exposed operations on an instance, threading the
instance dictionary through. -/
def runOps : List ConfigOp → Attrs → Attrs
  | [], s => s
  | op :: rest, s => runOps rest (runOp op s).2

/-- The 19 attributes assigned in the constructor plus the model_type tag
of an instance, in a fixed order. -/
def YosoConfig.listedAttrs (c : Attrs) : List (Option PyValue) :=
  [getattr c "vocab_size", getattr c "max_position_embeddings",
   getattr c "hidden_size", getattr c "num_hidden_layers",
   getattr c "num_attention_heads", getattr c "intermediate_size",
   getattr c "hidden_act", getattr c "hidden_dropout_prob",
   getattr c "attention_probs_dropout_prob", getattr c "initializer_range",
   getattr c "type_vocab_size", getattr c "layer_norm_eps",
   getattr c "position_embedding_type", getattr c "use_expectation",
   getattr c "hash_code_len", getattr c "num_hash",
   getattr c "conv_window", getattr c "use_fast_hash",
   getattr c "lsh_backward", getattro c "model_type"]

/-- Claim C1: constructing the configuration with no arguments yields the
documented default for every field: vocab_size=50265, hidden_size=768,
num_hidden_layers=12, num_attention_heads=12, intermediate_size=3072,
hidden_act="gelu", hidden_dropout_prob=0.1, attention_probs_dropout_prob=0.1,
max_position_embeddings=4096, type_vocab_size=1, initializer_range=0.02,
layer_norm_eps=1e-12, position_embedding_type="absolute",
use_expectation=True, hash_code_len=9, num_hash=64, use_fast_hash=True,
lsh_backward=True, pad_token_id=1, bos_token_id=0, eos_token_id=2. -/
theorem yoso_default_fields :
    getattr (YosoConfig.init {}) "vocab_size" = some (.int 50265) ∧
    getattr (YosoConfig.init {}) "hidden_size" = some (.int 768) ∧
    getattr (YosoConfig.init {}) "num_hidden_layers" = some (.int 12) ∧
    getattr (YosoConfig.init {}) "num_attention_heads" = some (.int 12) ∧
    getattr (YosoConfig.init {}) "intermediate_size" = some (.int 3072) ∧
    getattr (YosoConfig.init {}) "hidden_act" = some (.str "gelu") ∧
    getattr (YosoConfig.init {}) "hidden_dropout_prob" = some (.float (1 / 10)) ∧
    getattr (YosoConfig.init {}) "attention_probs_dropout_prob" = some (.float (1 / 10)) ∧
    getattr (YosoConfig.init {}) "max_position_embeddings" = some (.int 4096) ∧
    getattr (YosoConfig.init {}) "type_vocab_size" = some (.int 1) ∧
    getattr (YosoConfig.init {}) "initializer_range" = some (.float (1 / 50)) ∧
    getattr (YosoConfig.init {}) "layer_norm_eps" = some (.float (1 / 1000000000000)) ∧
    getattr (YosoConfig.init {}) "position_embedding_type" = some (.str "absolute") ∧
    getattr (YosoConfig.init {}) "use_expectation" = some (.bool true) ∧
    getattr (YosoConfig.init {}) "hash_code_len" = some (.int 9) ∧
    getattr (YosoConfig.init {}) "num_hash" = some (.int 64) ∧
    getattr (YosoConfig.init {}) "use_fast_hash" = some (.bool true) ∧
    getattr (YosoConfig.init {}) "lsh_backward" = some (.bool true) ∧
    getattr (YosoConfig.init {}) "pad_token_id" = some (.int 1) ∧
    getattr (YosoConfig.init {}) "bos_token_id" = some (.int 0) ∧
    getattr (YosoConfig.init {}) "eos_token_id" = some (.int 2) :=
  ⟨rfl, rfl, rfl, rfl, rfl, rfl, rfl, rfl, rfl, rfl, rfl, rfl, rfl, rfl, rfl,
   rfl, rfl, rfl, rfl, rfl, rfl⟩

/-- Claim C2: for every named field of the configuration and every value,
constructing with that field set to the value yields an instance whose
same-named attribute is that value unchanged (identity pass-through, no
coercion or transformation on any parameter). -/
theorem yoso_field_passthrough :
    (∀ v : PyValue, getattr (YosoConfig.init { vocab_size := v }) "vocab_size" = some v) ∧
    (∀ v : PyValue, getattr (YosoConfig.init { hidden_size := v }) "hidden_size" = some v) ∧
    (∀ v : PyValue, getattr (YosoConfig.init { num_hidden_layers := v }) "num_hidden_layers" = some v) ∧
    (∀ v : PyValue, getattr (YosoConfig.init { num_attention_heads := v }) "num_attention_heads" = some v) ∧
    (∀ v : PyValue, getattr (YosoConfig.init { intermediate_size := v }) "intermediate_size" = some v) ∧
    (∀ v : PyValue, getattr (YosoConfig.init { hidden_act := v }) "hidden_act" = some v) ∧
    (∀ v : PyValue, getattr (YosoConfig.init { hidden_dropout_prob := v }) "hidden_dropout_prob" = some v) ∧
    (∀ v : PyValue, getattr (YosoConfig.init { attention_probs_dropout_prob := v }) "attention_probs_dropout_prob" = some v) ∧
    (∀ v : PyValue, getattr (YosoConfig.init { max_position_embeddings := v }) "max_position_embeddings" = some v) ∧
    (∀ v : PyValue, getattr (YosoConfig.init { type_vocab_size := v }) "type_vocab_size" = some v) ∧
    (∀ v : PyValue, getattr (YosoConfig.init { initializer_range := v }) "initializer_range" = some v) ∧
    (∀ v : PyValue, getattr (YosoConfig.init { layer_norm_eps := v }) "layer_norm_eps" = some v) ∧
    (∀ v : PyValue, getattr (YosoConfig.init { position_embedding_type := v }) "position_embedding_type" = some v) ∧
    (∀ v : PyValue, getattr (YosoConfig.init { use_expectation := v }) "use_expectation" = some v) ∧
    (∀ v : PyValue, getattr (YosoConfig.init { hash_code_len := v }) "hash_code_len" = some v) ∧
    (∀ v : PyValue, getattr (YosoConfig.init { num_hash := v }) "num_hash" = some v) ∧
    (∀ v : PyValue, getattr (YosoConfig.init { conv_window := v }) "conv_window" = some v) ∧
    (∀ v : PyValue, getattr (YosoConfig.init { use_fast_hash := v }) "use_fast_hash" = some v) ∧
    (∀ v : PyValue, getattr (YosoConfig.init { lsh_backward := v }) "lsh_backward" = some v) ∧
    (∀ v : PyValue, getattr (YosoConfig.init { pad_token_id := v }) "pad_token_id" = some v) ∧
    (∀ v : PyValue, getattr (YosoConfig.init { bos_token_id := v }) "bos_token_id" = some v) ∧
    (∀ v : PyValue, getattr (YosoConfig.init { eos_token_id := v }) "eos_token_id" = some v) :=
  ⟨fun _ => rfl, fun _ => rfl, fun _ => rfl, fun _ => rfl, fun _ => rfl,
   fun _ => rfl, fun _ => rfl, fun _ => rfl, fun _ => rfl, fun _ => rfl,
   fun _ => rfl, fun _ => rfl, fun _ => rfl, fun _ => rfl, fun _ => rfl,
   fun _ => rfl, fun _ => rfl, fun _ => rfl, fun _ => rfl, fun _ => rfl,
   fun _ => rfl, fun _ => rfl⟩

/-- Claim C3: the type tag model_type of the configuration is exactly the
string "yoso", and attribute lookup of model_type on any constructed
instance yields that same tag, identical for every instance regardless of
the constructor arguments supplied. -/
theorem yoso_model_type_constant :
    YosoConfig.model_type = "yoso" ∧
    (∀ a b : YosoConfig.InitArgs,
      getattro (YosoConfig.init a) "model_type" = some (PyValue.str "yoso") ∧
      getattro (YosoConfig.init a) "model_type" = getattro (YosoConfig.init b) "model_type") :=
  ⟨rfl, fun _ _ => ⟨rfl, rfl⟩⟩

/-- Claim C4: construction never fails for any field values; the
constructor is a total function that, for every assignment of values to
every listed parameter (including invalid ones such as a negative layer
count), silently stores each value on the corresponding attribute. -/
theorem yoso_no_validation_stores_any_value (args : YosoConfig.InitArgs) :
    getattr (YosoConfig.init args) "vocab_size" = some args.vocab_size ∧
    getattr (YosoConfig.init args) "hidden_size" = some args.hidden_size ∧
    getattr (YosoConfig.init args) "num_hidden_layers" = some args.num_hidden_layers ∧
    getattr (YosoConfig.init args) "num_attention_heads" = some args.num_attention_heads ∧
    getattr (YosoConfig.init args) "intermediate_size" = some args.intermediate_size ∧
    getattr (YosoConfig.init args) "hidden_act" = some args.hidden_act ∧
    getattr (YosoConfig.init args) "hidden_dropout_prob" = some args.hidden_dropout_prob ∧
    getattr (YosoConfig.init args) "attention_probs_dropout_prob" = some args.attention_probs_dropout_prob ∧
    getattr (YosoConfig.init args) "max_position_embeddings" = some args.max_position_embeddings ∧
    getattr (YosoConfig.init args) "type_vocab_size" = some args.type_vocab_size ∧
    getattr (YosoConfig.init args) "initializer_range" = some args.initializer_range ∧
    getattr (YosoConfig.init args) "layer_norm_eps" = some args.layer_norm_eps ∧
    getattr (YosoConfig.init args) "position_embedding_type" = some args.position_embedding_type ∧
    getattr (YosoConfig.init args) "use_expectation" = some args.use_expectation ∧
    getattr (YosoConfig.init args) "hash_code_len" = some args.hash_code_len ∧
    getattr (YosoConfig.init args) "num_hash" = some args.num_hash ∧
    getattr (YosoConfig.init args) "conv_window" = some args.conv_window ∧
    getattr (YosoConfig.init args) "use_fast_hash" = some args.use_fast_hash ∧
    getattr (YosoConfig.init args) "lsh_backward" = some args.lsh_backward ∧
    getattr (YosoConfig.init args) "pad_token_id" = some args.pad_token_id ∧
    getattr (YosoConfig.init args) "bos_token_id" = some args.bos_token_id ∧
    getattr (YosoConfig.init args) "eos_token_id" = some args.eos_token_id :=
  ⟨rfl, rfl, rfl, rfl, rfl, rfl, rfl, rfl, rfl, rfl, rfl, rfl, rfl, rfl, rfl,
   rfl, rfl, rfl, rfl, rfl, rfl, rfl⟩

/-- Claim C5: for any keyword arguments, including names that are not
listed parameters, the constructor does not reject or raise at this layer
(construction completes and the listed attributes are assigned), and the
argument list it forwards to the shared base initializer is exactly the
three token-id fields followed by all the unrecognized keyword
arguments. -/
theorem yoso_forwards_kwargs_to_base (args : YosoConfig.InitArgs) :
    YosoConfig.forwardedToBase args =
      ("pad_token_id", args.pad_token_id) ::
      ("bos_token_id", args.bos_token_id) ::
      ("eos_token_id", args.eos_token_id) :: args.kwargs ∧
    getattr (YosoConfig.init args) "vocab_size" = some args.vocab_size ∧
    getattr (YosoConfig.init args) "lsh_backward" = some args.lsh_backward :=
  ⟨rfl, rfl, rfl⟩

/-- Claim C6: constructing with hidden_size=512 and num_hash=32 yields
hidden_size=512 and num_hash=32, and leaves every other listed field at
its documented default value. -/
theorem yoso_partial_override_frame :
    getattr (YosoConfig.init { hidden_size := .int 512, num_hash := .int 32 }) "hidden_size" = some (.int 512) ∧
    getattr (YosoConfig.init { hidden_size := .int 512, num_hash := .int 32 }) "num_hash" = some (.int 32) ∧
    getattr (YosoConfig.init { hidden_size := .int 512, num_hash := .int 32 }) "vocab_size" = some (.int 50265) ∧
    getattr (YosoConfig.init { hidden_size := .int 512, num_hash := .int 32 }) "num_hidden_layers" = some (.int 12) ∧
    getattr (YosoConfig.init { hidden_size := .int 512, num_hash := .int 32 }) "num_attention_heads" = some (.int 12) ∧
    getattr (YosoConfig.init { hidden_size := .int 512, num_hash := .int 32 }) "intermediate_size" = some (.int 3072) ∧
    getattr (YosoConfig.init { hidden_size := .int 512, num_hash := .int 32 }) "hidden_act" = some (.str "gelu") ∧
    getattr (YosoConfig.init { hidden_size := .int 512, num_hash := .int 32 }) "hidden_dropout_prob" = some (.float (1 / 10)) ∧
    getattr (YosoConfig.init { hidden_size := .int 512, num_hash := .int 32 }) "attention_probs_dropout_prob" = some (.float (1 / 10)) ∧
    getattr (YosoConfig.init { hidden_size := .int 512, num_hash := .int 32 }) "max_position_embeddings" = some (.int 4096) ∧
    getattr (YosoConfig.init { hidden_size := .int 512, num_hash := .int 32 }) "type_vocab_size" = some (.int 1) ∧
    getattr (YosoConfig.init { hidden_size := .int 512, num_hash := .int 32 }) "initializer_range" = some (.float (1 / 50)) ∧
    getattr (YosoConfig.init { hidden_size := .int 512, num_hash := .int 32 }) "layer_norm_eps" = some (.float (1 / 1000000000000)) ∧
    getattr (YosoConfig.init { hidden_size := .int 512, num_hash := .int 32 }) "position_embedding_type" = some (.str "absolute") ∧
    getattr (YosoConfig.init { hidden_size := .int 512, num_hash := .int 32 }) "use_expectation" = some (.bool true) ∧
    getattr (YosoConfig.init { hidden_size := .int 512, num_hash := .int 32 }) "hash_code_len" = some (.int 9) ∧
    getattr (YosoConfig.init { hidden_size := .int 512, num_hash := .int 32 }) "conv_window" = some PyValue.none ∧
    getattr (YosoConfig.init { hidden_size := .int 512, num_hash := .int 32 }) "use_fast_hash" = some (.bool true) ∧
    getattr (YosoConfig.init { hidden_size := .int 512, num_hash := .int 32 }) "lsh_backward" = some (.bool true) ∧
    getattr (YosoConfig.init { hidden_size := .int 512, num_hash := .int 32 }) "pad_token_id" = some (.int 1) ∧
    getattr (YosoConfig.init { hidden_size := .int 512, num_hash := .int 32 }) "bos_token_id" = some (.int 0) ∧
    getattr (YosoConfig.init { hidden_size := .int 512, num_hash := .int 32 }) "eos_token_id" = some (.int 2) :=
  ⟨rfl, rfl, rfl, rfl, rfl, rfl, rfl, rfl, rfl, rfl, rfl, rfl, rfl, rfl, rfl,
   rfl, rfl, rfl, rfl, rfl, rfl, rfl⟩

/-- Claim C7: the configuration exposes no operation that mutates an
instance after construction. Every operation the class exposes on a
constructed instance is an attribute read, and running any sequence of
exposed operations leaves the instance dictionary of a constructed
instance exactly as the constructor produced it. -/
theorem yoso_no_mutating_operation (args : YosoConfig.InitArgs)
    (ops : List ConfigOp) :
    runOps ops (YosoConfig.init args) = YosoConfig.init args := by
  have h : ∀ (l : List ConfigOp) (s : Attrs), runOps l s = s := by
    intro l
    induction l with
    | nil => intro s; rfl
    | cons op rest ih =>
      intro s
      cases op with
      | readAttr name => simpa [runOps, runOp] using ih s
  exact h ops (YosoConfig.init args)

/-- Claim C8: when conv_window is not supplied, the constructed
configuration stores None on the conv_window attribute, unlike every other
listed field, whose default is a concrete scalar (not None). -/
theorem yoso_conv_window_default_none :
    getattr (YosoConfig.init {}) "conv_window" = some PyValue.none ∧
    getattr (YosoConfig.init {}) "vocab_size" ≠ some PyValue.none ∧
    getattr (YosoConfig.init {}) "hidden_size" ≠ some PyValue.none ∧
    getattr (YosoConfig.init {}) "num_hidden_layers" ≠ some PyValue.none ∧
    getattr (YosoConfig.init {}) "num_attention_heads" ≠ some PyValue.none ∧
    getattr (YosoConfig.init {}) "intermediate_size" ≠ some PyValue.none ∧
    getattr (YosoConfig.init {}) "hidden_act" ≠ some PyValue.none ∧
    getattr (YosoConfig.init {}) "hidden_dropout_prob" ≠ some PyValue.none ∧
    getattr (YosoConfig.init {}) "attention_probs_dropout_prob" ≠ some PyValue.none ∧
    getattr (YosoConfig.init {}) "max_position_embeddings" ≠ some PyValue.none ∧
    getattr (YosoConfig.init {}) "type_vocab_size" ≠ some PyValue.none ∧
    getattr (YosoConfig.init {}) "initializer_range" ≠ some PyValue.none ∧
    getattr (YosoConfig.init {}) "layer_norm_eps" ≠ some PyValue.none ∧
    getattr (YosoConfig.init {}) "position_embedding_type" ≠ some PyValue.none ∧
    getattr (YosoConfig.init {}) "use_expectation" ≠ some PyValue.none ∧
    getattr (YosoConfig.init {}) "hash_code_len" ≠ some PyValue.none ∧
    getattr (YosoConfig.init {}) "num_hash" ≠ some PyValue.none ∧
    getattr (YosoConfig.init {}) "use_fast_hash" ≠ some PyValue.none ∧
    getattr (YosoConfig.init {}) "lsh_backward" ≠ some PyValue.none ∧
    getattr (YosoConfig.init {}) "pad_token_id" ≠ some PyValue.none ∧
    getattr (YosoConfig.init {}) "bos_token_id" ≠ some PyValue.none ∧
    getattr (YosoConfig.init {}) "eos_token_id" ≠ some PyValue.none := by
  refine ⟨rfl, ?_⟩
  decide

/-- Claim C9: construction is deterministic: two invocations of the
constructor with identical arguments produce instances whose 19
constructor-assigned attributes and model_type tag are pairwise equal. -/
theorem yoso_deterministic_construction (a b : YosoConfig.InitArgs)
    (h : a = b) :
    YosoConfig.listedAttrs (YosoConfig.init a) =
      YosoConfig.listedAttrs (YosoConfig.init b) := by
  rw [h]

/-- Witness for claim C9 at the all-defaults argument record. -/
theorem yoso_deterministic_construction_witness :
    YosoConfig.listedAttrs (YosoConfig.init {}) =
      YosoConfig.listedAttrs (YosoConfig.init {}) :=
  yoso_deterministic_construction {} {} rfl

/-- Claim C10: the 19 listed attributes are assigned after the base
initializer call returns, so whatever attributes the base initializer sets
from the forwarded keyword arguments (here: any base behavior whatsoever),
each listed attribute of the finished instance is the explicit constructor
parameter. -/
theorem yoso_explicit_params_override_base (base : Attrs → Attrs)
    (args : YosoConfig.InitArgs) :
    getattr (YosoConfig.init_gen base args) "vocab_size" = some args.vocab_size ∧
    getattr (YosoConfig.init_gen base args) "max_position_embeddings" = some args.max_position_embeddings ∧
    getattr (YosoConfig.init_gen base args) "hidden_size" = some args.hidden_size ∧
    getattr (YosoConfig.init_gen base args) "num_hidden_layers" = some args.num_hidden_layers ∧
    getattr (YosoConfig.init_gen base args) "num_attention_heads" = some args.num_attention_heads ∧
    getattr (YosoConfig.init_gen base args) "intermediate_size" = some args.intermediate_size ∧
    getattr (YosoConfig.init_gen base args) "hidden_act" = some args.hidden_act ∧
    getattr (YosoConfig.init_gen base args) "hidden_dropout_prob" = some args.hidden_dropout_prob ∧
    getattr (YosoConfig.init_gen base args) "attention_probs_dropout_prob" = some args.attention_probs_dropout_prob ∧
    getattr (YosoConfig.init_gen base args) "initializer_range" = some args.initializer_range ∧
    getattr (YosoConfig.init_gen base args) "type_vocab_size" = some args.type_vocab_size ∧
    getattr (YosoConfig.init_gen base args) "layer_norm_eps" = some args.layer_norm_eps ∧
    getattr (YosoConfig.init_gen base args) "position_embedding_type" = some args.position_embedding_type ∧
    getattr (YosoConfig.init_gen base args) "use_expectation" = some args.use_expectation ∧
    getattr (YosoConfig.init_gen base args) "hash_code_len" = some args.hash_code_len ∧
    getattr (YosoConfig.init_gen base args) "num_hash" = some args.num_hash ∧
    getattr (YosoConfig.init_gen base args) "conv_window" = some args.conv_window ∧
    getattr (YosoConfig.init_gen base args) "use_fast_hash" = some args.use_fast_hash ∧
    getattr (YosoConfig.init_gen base args) "lsh_backward" = some args.lsh_backward :=
  ⟨rfl, rfl, rfl, rfl, rfl, rfl, rfl, rfl, rfl, rfl, rfl, rfl, rfl, rfl, rfl,
   rfl, rfl, rfl, rfl⟩
